import Mathlib

set_option maxRecDepth 8000
set_option maxHeartbeats 2000000

/-!
# A byte-level model of `elfkillah` (src/elfkillah.c)

The program maps an ELF-32/64 file, reads the section-header-table fields of
its header, writes the first `e_shoff - 1` bytes of the source to a new file,
re-maps that new file, zeroes the four section-header fields of its ELF header
and the recorded string-table byte range, and exits.

The model below is a shallow embedding of that C source:

* a file is a `List Nat`; a C byte is a value mod 256, so every read of a
  byte reduces the stored `Nat` mod 256 (lists whose entries are below 256
  are unchanged by this);
* the host is little-endian and the program does no byte swapping, so
  multi-byte fields are read little-endian (`readLE`);
* `mmap` rounds the mapping up to the 4096-byte page size
  (`align_to_page`, from `align_to_page` in the C); memory between the end
  of the file and the end of the mapping reads as zero bytes
  (`mapped_bytes`), which is how a `MAP_SHARED` file mapping behaves on the
  partial last page;
* machine integers are `Nat` with an explicit `% 2 ^ w` where the C performs
  w-bit unsigned arithmetic (the `e_shoff - 1` subtraction in `write_elf`);
* each C function that can call `err_exit` becomes a Lean function returning
  `Except`; `main`'s pipeline becomes `main_run`, which also returns the
  final contents of the two files involved (`Disk`), so that statements
  about "the source file afterwards" and "whether an output file exists"
  are expressible.

Structure field offsets used below (from `<elf.h>`, both classes share the
16-byte `e_ident` followed by `e_type`,`e_machine`,`e_version`):

* `Elf32_Ehdr`: `e_shoff` at byte 32 (4 bytes), `e_shentsize` at 46,
  `e_shnum` at 48, `e_shstrndx` at 50 (2 bytes each);
* `Elf64_Ehdr`: `e_shoff` at byte 40 (8 bytes), `e_shentsize` at 58,
  `e_shnum` at 60, `e_shstrndx` at 62 (2 bytes each);
* `Elf32_Shdr`: `sh_offset` at byte 16, `sh_size` at byte 20 (4 bytes each);
* `Elf64_Shdr`: `sh_offset` at byte 24, `sh_size` at byte 32 (8 bytes each).
-/

/-- The two ELF classes the program recognises: `ELFCLASS32` (class byte 1)
and `ELFCLASS64` (class byte 2). -/
inductive ElfType where
  | elf32
  | elf64
deriving DecidableEq

/-- The `ElfContainer` struct of the C source.  `bytes` stands for the file
content behind the `elf32`/`elf64` mapping pointer; `size` is `sb.st_size`;
`mmapped` is the page-rounded mapping length. -/
structure ElfContainer where
  type : ElfType
  size : Nat
  mmapped : Nat
  strtbloff : Nat
  strtblsize : Nat
  bytes : List Nat
deriving DecidableEq

/-- Little-endian read of `n` bytes at offset `off`; bytes past the end of
the list read as 0 (the zero-filled tail of the partial mapped page).  Each
stored value is reduced mod 256, as a C byte is. -/
def readLE (bs : List Nat) : Nat → Nat → Nat
  | _, 0 => 0
  | off, n + 1 => bs.getD off 0 % 256 + 256 * readLE bs (off + 1) n

/-- Store 0 into each of the `n` bytes starting at `off` (the field stores and
the string-table clearing loop of `adjust_header`).  A store past the end of
the list is dropped: a store past the end of the mapped file is not persisted
to the file (past the mapping it is undefined behavior in the C). -/
def zeroRange : List Nat → Nat → Nat → List Nat
  | bs, _, 0 => bs
  | bs, off, n + 1 => zeroRange (bs.set off 0) (off + 1) n

/-- Byte offset of `e_shoff` in the ELF header, per class. -/
def shoff_pos : ElfType → Nat
  | .elf32 => 32
  | .elf64 => 40

/-- Byte width of `e_shoff` (`Elf32_Off` / `Elf64_Off`), per class. -/
def shoff_len : ElfType → Nat
  | .elf32 => 4
  | .elf64 => 8

/-- Byte offset of `e_shentsize` in the ELF header, per class. -/
def shentsize_pos : ElfType → Nat
  | .elf32 => 46
  | .elf64 => 58

/-- Byte offset of `e_shnum` in the ELF header, per class. -/
def shnum_pos : ElfType → Nat
  | .elf32 => 48
  | .elf64 => 60

/-- Byte offset of `e_shstrndx` in the ELF header, per class. -/
def shstrndx_pos : ElfType → Nat
  | .elf32 => 50
  | .elf64 => 62

/-- Byte offset of `sh_offset` inside a section header entry, per class. -/
def sh_offset_pos : ElfType → Nat
  | .elf32 => 16
  | .elf64 => 24

/-- Byte offset of `sh_size` inside a section header entry, per class. -/
def sh_size_pos : ElfType → Nat
  | .elf32 => 20
  | .elf64 => 32

/-- Byte width of `sh_offset`/`sh_size` (4 for ELF32, 8 for ELF64). -/
def word_len : ElfType → Nat
  | .elf32 => 4
  | .elf64 => 8

/-- `elfc->elf32->e_shoff` / `elfc->elf64->e_shoff`. -/
def e_shoff (c : ElfContainer) : Nat :=
  readLE c.bytes (shoff_pos c.type) (shoff_len c.type)

/-- `e_shentsize` (a 2-byte `Elf32_Half`/`Elf64_Half` in both classes). -/
def e_shentsize (c : ElfContainer) : Nat :=
  readLE c.bytes (shentsize_pos c.type) 2

/-- `e_shnum` (2 bytes in both classes). -/
def e_shnum (c : ElfContainer) : Nat :=
  readLE c.bytes (shnum_pos c.type) 2

/-- `e_shstrndx` (2 bytes in both classes). -/
def e_shstrndx (c : ElfContainer) : Nat :=
  readLE c.bytes (shstrndx_pos c.type) 2

/-- `get_string_table` (src/elfkillah.c lines 93-128): for either class it
sets `ptr` to `base + e_shoff + e_shstrndx * e_shentsize` and records the
`sh_offset` and `sh_size` fields of the section header found there.  The C
performs no check of `e_shstrndx` against `e_shnum` and no check of the
computed address against the file or mapping length; it cannot fail for a
container of either class (the `err_exit` branch is only for an `elfc->type`
outside the two classes, which `build_container` never constructs).  Reads
past the file inside the mapped page return the page's zero fill; reads past
the mapping are undefined behavior in the C and read 0 in the model. -/
def get_string_table (c : ElfContainer) : ElfContainer :=
  let ptr := e_shoff c + e_shstrndx c * e_shentsize c
  { c with
    strtbloff := readLE c.bytes (ptr + sh_offset_pos c.type) (word_len c.type)
    strtblsize := readLE c.bytes (ptr + sh_size_pos c.type) (word_len c.type) }

/-- `align_to_page` (src/elfkillah.c lines 77-91) with the usual 4096-byte
page size: sizes up to one page map one page, larger sizes are rounded up by
`size + pg - size % pg`. -/
def align_to_page (size : Nat) : Nat :=
  if size ≤ 4096 then 4096 else size + 4096 - size % 4096

/-- The failure exits of `build_container`: `"bad file"` for a wrong magic,
`"bad class"` for a class byte other than 1 or 2.  (The `open`/`fstat`/
`mmap`/`malloc` exits concern resources outside the byte-level model, which
assumes the named file exists and is readable.) -/
inductive BuildErr where
  | badFile
  | badClass
deriving DecidableEq

/-- The magic test of `build_container` (lines 156-159): bytes 0-3 must be
`0x7f 'E' 'L' 'F'`. -/
def magic_ok (f : List Nat) : Bool :=
  f.getD 0 0 % 256 == 0x7f && f.getD 1 0 % 256 == 0x45 &&
  f.getD 2 0 % 256 == 0x4c && f.getD 3 0 % 256 == 0x46

/-- `id[EI_CLASS]`, the class byte at index 4. -/
def class_byte (f : List Nat) : Nat := f.getD 4 0 % 256

/-- `build_container` (src/elfkillah.c lines 130-185): map the file, check
the magic, dispatch on the class byte (1 = ELF32, 2 = ELF64, otherwise exit),
then call `get_string_table` and return the container. -/
def build_container (file : List Nat) : Except BuildErr ElfContainer :=
  if magic_ok file = false then .error .badFile
  else if class_byte file = 1 then
    .ok (get_string_table
      { type := .elf32, size := file.length, mmapped := align_to_page file.length
        strtbloff := 0, strtblsize := 0, bytes := file })
  else if class_byte file = 2 then
    .ok (get_string_table
      { type := .elf64, size := file.length, mmapped := align_to_page file.length
        strtbloff := 0, strtblsize := 0, bytes := file })
  else .error .badClass

/-- The one failure exit of `write_elf` after the destination is open:
`"write_elf() --> write()"`. -/
inductive WriteErr where
  | writeFailed
deriving DecidableEq

/-- The byte count `write_elf` asks `write` for: `e_shoff - 1` computed in
the unsigned arithmetic of the field's width (`Elf32_Off` is 32-bit,
`Elf64_Off` is 64-bit), so `e_shoff = 0` wraps to `2^w - 1`. -/
def write_size (c : ElfContainer) : Nat :=
  match c.type with
  | .elf32 => (e_shoff c + (2 ^ 32 - 1)) % 2 ^ 32
  | .elf64 => (e_shoff c + (2 ^ 64 - 1)) % 2 ^ 64

/-- The readable bytes behind the container's mapping pointer: the file
content followed by the zero fill of the page-rounded mapping. -/
def mapped_bytes (c : ElfContainer) : List Nat :=
  c.bytes ++ List.replicate (c.mmapped - c.bytes.length) 0

/-- `write_elf` (src/elfkillah.c lines 228-259) after the destination has
been opened with `O_CREAT|O_RDWR|O_TRUNC`: request a write of `write_size`
bytes from the mapping and fail iff `write` returned `0` or `-1`.  A request
of 0 bytes makes `write` return 0, hence the error; a request of at most the
mapping length is modelled as written in full; a request beyond the mapping
faults and is modelled as the same `err_exit` path (the C's behavior there
is not defined by the program).  The check accepts any other return value,
including a short write — that acceptance is modelled separately by
`write_reported`. -/
def write_elf (c : ElfContainer) : Except WriteErr (List Nat) :=
  if write_size c = 0 ∨ c.mmapped < write_size c then .error .writeFailed
  else .ok ((mapped_bytes c).take (write_size c))

/-- The result test at src/elfkillah.c line 254, exactly as written:
`written == 0 || written == -1`. -/
def write_check_fails (written : Int) : Bool :=
  written == 0 || written == -1

/-- The reporting of a `write` result in `write_elf`: `err_exit` iff
`write_check_fails`, otherwise the run continues as a success.  `size` is the
requested byte count; the C never compares `written` against it. -/
def write_reported (size : Nat) (written : Int) : Except WriteErr Int :=
  if write_check_fails written then .error .writeFailed else .ok written

/-- `adjust_header` (src/elfkillah.c lines 200-226): zero the four
section-header fields of the ELF header, then zero the
`strtblsize` bytes starting at file offset `strtbloff`.  Both are done
unconditionally; there is no containment check of the string-table range. -/
def adjust_bytes (c : ElfContainer) : List Nat :=
  zeroRange (zeroRange (zeroRange (zeroRange (zeroRange c.bytes (shoff_pos c.type) (shoff_len c.type)) (shentsize_pos c.type) 2) (shnum_pos c.type) 2) (shstrndx_pos c.type) 2) c.strtbloff c.strtblsize

/-- See `adjust_bytes` for the byte stores; the container keeps its other
fields. -/
def adjust_header (c : ElfContainer) : ElfContainer :=
  { c with bytes := adjust_bytes c }

/-- Lines 273-274 of `main`: `elfc_out->strtbloff = elfc_in->strtbloff;`
`elfc_out->strtblsize = elfc_in->strtblsize;`. -/
def copy_strtbl (cout cin : ElfContainer) : ElfContainer :=
  { cout with strtbloff := cin.strtbloff, strtblsize := cin.strtblsize }

/-- The contents of the two files a run touches: the source file and the
destination file (`none` while no destination has been created). -/
structure Disk where
  src : List Nat
  dst : Option (List Nat)
deriving DecidableEq

/-- Which stage of `main` exited: building the source container, the write
(after the destination was already created), or building the destination
container. -/
inductive StripErr where
  | srcOpen (e : BuildErr)
  | outWrite (e : WriteErr)
  | outOpen (e : BuildErr)
deriving DecidableEq

/-- `main` (src/elfkillah.c lines 261-282) on a source file: build the source
container; `write_elf` it to the destination (the destination is created by
`open(..., O_CREAT|O_RDWR|O_TRUNC, ...)` before the write size is even
computed, so once this stage is entered a destination file exists — on the
failed-write exit its content is the truncated-empty state); rebuild a
container from the destination, copy `strtbloff`/`strtblsize` over from the
source container, and run `adjust_header` on it.  `adjust_header` mutates the
destination's `MAP_SHARED` mapping, so its stores land in the destination
file; nothing in the run stores through the source container's mapping. -/
def main_run (src : List Nat) : Disk × Except StripErr (List Nat) :=
  match build_container src with
  | .error e => (⟨src, none⟩, .error (.srcOpen e))
  | .ok cin =>
    match write_elf cin with
    | .error e => (⟨src, some []⟩, .error (.outWrite e))
    | .ok out =>
      match build_container out with
      | .error e => (⟨src, some out⟩, .error (.outOpen e))
      | .ok cout =>
        (⟨src, some ((adjust_header (copy_strtbl cout cin)).bytes)⟩,
         .ok ((adjust_header (copy_strtbl cout cin)).bytes))

/-- The file-to-file transformation of a run: the destination content on
success. -/
def strip (input : List Nat) : Except StripErr (List Nat) :=
  (main_run input).2

/-- The byte positions zeroed as "header fields" by `adjust_header`:
`e_shoff`, `e_shentsize`, `e_shnum`, `e_shstrndx`, at the class's offsets. -/
def in_zeroed_header_field (t : ElfType) (i : Nat) : Prop :=
  (shoff_pos t ≤ i ∧ i < shoff_pos t + shoff_len t) ∨
  (shentsize_pos t ≤ i ∧ i < shentsize_pos t + 2) ∨
  (shnum_pos t ≤ i ∧ i < shnum_pos t + 2) ∨
  (shstrndx_pos t ≤ i ∧ i < shstrndx_pos t + 2)

instance (t : ElfType) (i : Nat) : Decidable (in_zeroed_header_field t i) := by
  unfold in_zeroed_header_field
  infer_instance

deriving instance DecidableEq for Except

/-- Test scaffolding (not from the source): store the little-endian encoding
of `v` into `n` bytes at offset `off`, for building concrete input files. -/
def setBytesLE : List Nat → Nat → Nat → Nat → List Nat
  | bs, _, 0, _ => bs
  | bs, off, n + 1, v => setBytesLE (bs.set off (v % 256)) (off + 1) n (v / 256)

/-- Fallback container for extracting the result of a successful
`build_container` run. -/
def emptyContainer : ElfContainer :=
  ⟨.elf32, 0, 0, 0, 0, []⟩

/-- The container a successful `build_container` run on `f` produces. -/
def theContainer (f : List Nat) : ElfContainer :=
  (build_container f).toOption.getD emptyContainer

/-- A 400-byte ELF64 input: `e_shoff = 320`, `e_shentsize = 64`,
`e_shnum = 1`, `e_shstrndx = 0`; the single section header entry (bytes
320-383) is all zero, so the recorded string table is `(0, 0)`; every other
byte is 0x61. -/
def C1file : List Nat :=
  let f := List.replicate 400 0x61
  let f := ((((f.set 0 0x7f).set 1 0x45).set 2 0x4c).set 3 0x46).set 4 2
  let f := setBytesLE f 40 8 320
  let f := setBytesLE f 58 2 64
  let f := setBytesLE f 60 2 1
  let f := setBytesLE f 62 2 0
  let f := setBytesLE f 320 64 0
  f

/-- A 200-byte ELF32 input with `e_shnum = 0`: `e_shoff = 100`,
`e_shentsize = 40`, `e_shstrndx = 0`; bytes 100-139 (where
`get_string_table` reads the entry) are zero; every other byte is 0x62. -/
def C2file : List Nat :=
  let f := List.replicate 200 0x62
  let f := ((((f.set 0 0x7f).set 1 0x45).set 2 0x4c).set 3 0x46).set 4 1
  let f := setBytesLE f 32 4 100
  let f := setBytesLE f 46 2 40
  let f := setBytesLE f 48 2 0
  let f := setBytesLE f 50 2 0
  let f := setBytesLE f 100 40 0
  f

/-- The output `strip` produces from `C2file`. -/
def C2out : List Nat :=
  (strip C2file).toOption.getD []

/-- The source container `build_container` produces from `C2file`. -/
def C2cin : ElfContainer :=
  theContainer C2file

/-- A 150-byte ELF64 input with `e_shoff = 0` and `e_shnum = 2`
(`e_shentsize = 64`, `e_shstrndx = 0`); every unset byte is 0x63. -/
def C3file : List Nat :=
  let f := List.replicate 150 0x63
  let f := ((((f.set 0 0x7f).set 1 0x45).set 2 0x4c).set 3 0x46).set 4 2
  let f := setBytesLE f 40 8 0
  let f := setBytesLE f 58 2 64
  let f := setBytesLE f 60 2 2
  let f := setBytesLE f 62 2 0
  f

/-- The source container `build_container` produces from `C3file`. -/
def C3cin : ElfContainer :=
  theContainer C3file

/-- A 120-byte ELF64 input whose `e_shstrndx = 5` exceeds `e_shnum = 1`:
`e_shoff = 64`, `e_shentsize = 64`, so `get_string_table`'s address
`64 + 5 * 64 = 384` lies past the 120-byte file; every unset byte is 0x64. -/
def C4file : List Nat :=
  let f := List.replicate 120 0x64
  let f := ((((f.set 0 0x7f).set 1 0x45).set 2 0x4c).set 3 0x46).set 4 2
  let f := setBytesLE f 40 8 64
  let f := setBytesLE f 58 2 64
  let f := setBytesLE f 60 2 1
  let f := setBytesLE f 62 2 5
  f

/-- The container `build_container` produces from `C4file`. -/
def C4ctr : ElfContainer :=
  theContainer C4file

/-- A 200-byte ELF64 input whose string table sticks out past the cut:
`e_shoff = 101` (so 100 bytes are retained), `e_shnum = 1`,
`e_shstrndx = 0`, and the entry at byte 101 records `sh_offset = 90`,
`sh_size = 20`, i.e. the range [90, 110) while only [0, 100) is kept.
Byte 95 is 7; every unset byte is 0x65. -/
def C5file : List Nat :=
  let f := List.replicate 200 0x65
  let f := ((((f.set 0 0x7f).set 1 0x45).set 2 0x4c).set 3 0x46).set 4 2
  let f := setBytesLE f 40 8 101
  let f := setBytesLE f 58 2 64
  let f := setBytesLE f 60 2 1
  let f := setBytesLE f 62 2 0
  let f := setBytesLE f 125 8 90
  let f := setBytesLE f 133 8 20
  let f := f.set 95 7
  f

/-- The output `strip` produces from `C5file`. -/
def C5out : List Nat :=
  (strip C5file).toOption.getD []

/-- A 300-byte ELF64 input whose string table lies inside the retained
region: `e_shoff = 200` (199 bytes retained), `e_shnum = 2`,
`e_shstrndx = 0`, entry at byte 200 records `sh_offset = 150`,
`sh_size = 10`.  Byte 155 is 0x41; every unset byte is 0x67. -/
def C7file : List Nat :=
  let f := List.replicate 300 0x67
  let f := ((((f.set 0 0x7f).set 1 0x45).set 2 0x4c).set 3 0x46).set 4 2
  let f := setBytesLE f 40 8 200
  let f := setBytesLE f 58 2 64
  let f := setBytesLE f 60 2 2
  let f := setBytesLE f 62 2 0
  let f := setBytesLE f 224 8 150
  let f := setBytesLE f 232 8 10
  let f := f.set 155 0x41
  f

/-- The source container `build_container` produces from `C7file`. -/
def C7cin : ElfContainer :=
  theContainer C7file

/-- The intermediate truncated file `write_elf` produces from `C7cin`. -/
def C7out : List Nat :=
  (write_elf C7cin).toOption.getD []

/-- The destination container `build_container` produces from `C7out`. -/
def C7cout : ElfContainer :=
  theContainer C7out

/-- The final output `strip` produces from `C7file`. -/
def C7y : List Nat :=
  (strip C7file).toOption.getD []

/-- A 150-byte ELF64 input: `e_shoff = 120`, `e_shentsize = 64`,
`e_shnum = 1`, `e_shstrndx = 0`; the entry at byte 120 records
`sh_offset = 100` and (reading past the end of the file) `sh_size = 0`;
every unset byte is 0x69. -/
def C9x : List Nat :=
  let f := List.replicate 150 0x69
  let f := ((((f.set 0 0x7f).set 1 0x45).set 2 0x4c).set 3 0x46).set 4 2
  let f := setBytesLE f 40 8 120
  let f := setBytesLE f 58 2 64
  let f := setBytesLE f 60 2 1
  let f := setBytesLE f 62 2 0
  let f := setBytesLE f 144 6 100
  f

/-- The output the first `strip` run produces from `C9x` (its `e_shoff`
field now reads 0). -/
def C9y : List Nat :=
  (strip C9x).toOption.getD []

/-- The container `build_container` produces from `C9y`. -/
def C9yc : ElfContainer :=
  theContainer C9y

/-! ## General lemmas about the byte-store primitives -/

theorem getD_set_zero (bs : List Nat) (j i : Nat) :
    (bs.set j 0).getD i 0 = if i = j then 0 else bs.getD i 0 := by
  rw [List.getD_eq_getD_get?, List.get?_set]
  rcases eq_or_ne j i with h | h
  · rw [if_pos h, if_pos h.symm]
    cases bs.get? i <;> rfl
  · rw [if_neg h, if_neg (Ne.symm h), List.getD_eq_getD_get?]

theorem length_zeroRange (n : Nat) :
    ∀ (bs : List Nat) (off : Nat), (zeroRange bs off n).length = bs.length := by
  induction n with
  | zero => intro bs off; rfl
  | succ n ih => intro bs off; simp only [zeroRange]; rw [ih, List.length_set]

theorem getD_zeroRange (n : Nat) :
    ∀ (bs : List Nat) (off i : Nat),
      (zeroRange bs off n).getD i 0 = if off ≤ i ∧ i < off + n then 0 else bs.getD i 0 := by
  induction n with
  | zero =>
    intro bs off i
    rw [if_neg (by omega)]
    rfl
  | succ n ih =>
    intro bs off i
    simp only [zeroRange]
    rw [ih, getD_set_zero]
    split_ifs <;> first | rfl | (exfalso; omega)

theorem getD_take (l : List Nat) (n i : Nat) :
    (l.take n).getD i 0 = if i < n then l.getD i 0 else 0 := by
  rcases lt_or_ge i n with h | h
  · rw [if_pos h, List.getD_eq_getD_get?, List.getD_eq_getD_get?, List.get?_take h]
  · rw [if_neg (by omega)]
    apply List.getD_eq_default
    have := l.length_take n
    omega

theorem getD_replicate_zero (k j : Nat) :
    (List.replicate k (0 : Nat)).getD j 0 = 0 := by
  rcases lt_or_ge j k with h | h
  · rw [List.getD_eq_getElem _ _ (by simpa using h), List.getElem_replicate]
  · exact List.getD_eq_default _ _ (by simpa using h)

theorem getD_mapped_bytes (c : ElfContainer) (i : Nat) :
    (mapped_bytes c).getD i 0 = c.bytes.getD i 0 := by
  unfold mapped_bytes
  rcases lt_or_ge i c.bytes.length with h | h
  · exact List.getD_append _ _ _ _ h
  · rw [List.getD_append_right _ _ _ _ h, List.getD_eq_default _ _ h, getD_replicate_zero]

theorem length_mapped_bytes (c : ElfContainer) :
    (mapped_bytes c).length = c.bytes.length + (c.mmapped - c.bytes.length) := by
  simp [mapped_bytes]

theorem align_to_page_le (n : Nat) : align_to_page n ≤ n + 4096 := by
  unfold align_to_page
  split_ifs <;> omega

theorem le_align_to_page (n : Nat) : n ≤ align_to_page n := by
  unfold align_to_page
  split_ifs <;> omega

/-! ## Inversion lemmas for the embedded operations -/

theorem build_container_ok (f : List Nat) (c : ElfContainer) (h : build_container f = .ok c) :
    c.bytes = f ∧ c.size = f.length ∧ c.mmapped = align_to_page f.length ∧
      magic_ok f = true ∧
      ((class_byte f = 1 ∧ c.type = .elf32) ∨ (class_byte f = 2 ∧ c.type = .elf64)) := by
  unfold build_container at h
  by_cases h1 : magic_ok f = false
  · rw [if_pos h1] at h
    cases h
  · rw [if_neg h1] at h
    have hm : magic_ok f = true := by
      cases hb : magic_ok f
      · exact absurd hb h1
      · rfl
    by_cases h2 : class_byte f = 1
    · rw [if_pos h2] at h
      cases h
      exact ⟨rfl, rfl, rfl, hm, Or.inl ⟨h2, rfl⟩⟩
    · rw [if_neg h2] at h
      by_cases h3 : class_byte f = 2
      · rw [if_pos h3] at h
        cases h
        exact ⟨rfl, rfl, rfl, hm, Or.inr ⟨h3, rfl⟩⟩
      · rw [if_neg h3] at h
        cases h

theorem write_elf_ok (c : ElfContainer) (out : List Nat) (h : write_elf c = .ok out) :
    out = (mapped_bytes c).take (write_size c) ∧ write_size c ≠ 0 ∧
      write_size c ≤ c.mmapped ∧ out.length = write_size c := by
  unfold write_elf at h
  by_cases hc : write_size c = 0 ∨ c.mmapped < write_size c
  · rw [if_pos hc] at h
    cases h
  · rw [if_neg hc] at h
    push_neg at hc
    cases h
    refine ⟨rfl, hc.1, hc.2, ?_⟩
    have := length_mapped_bytes c
    have h2 := hc.2
    simp only [List.length_take]
    omega

theorem main_run_src_error (input : List Nat) (e : BuildErr)
    (h : build_container input = .error e) :
    main_run input = (⟨input, none⟩, .error (.srcOpen e)) := by
  unfold main_run
  simp only [h]

theorem main_run_write_error (input : List Nat) (cin : ElfContainer) (e : WriteErr)
    (h1 : build_container input = .ok cin) (h2 : write_elf cin = .error e) :
    main_run input = (⟨input, some []⟩, .error (.outWrite e)) := by
  unfold main_run
  simp only [h1, h2]

theorem main_run_out_error (input : List Nat) (cin : ElfContainer) (out : List Nat)
    (e : BuildErr) (h1 : build_container input = .ok cin) (h2 : write_elf cin = .ok out)
    (h3 : build_container out = .error e) :
    main_run input = (⟨input, some out⟩, .error (.outOpen e)) := by
  unfold main_run
  simp only [h1, h2, h3]

theorem main_run_ok (input : List Nat) (cin : ElfContainer) (out : List Nat)
    (cout : ElfContainer) (h1 : build_container input = .ok cin)
    (h2 : write_elf cin = .ok out) (h3 : build_container out = .ok cout) :
    main_run input = (⟨input, some ((adjust_header (copy_strtbl cout cin)).bytes)⟩,
      .ok ((adjust_header (copy_strtbl cout cin)).bytes)) := by
  unfold main_run
  simp only [h1, h2, h3]

theorem adjust_header_length (c : ElfContainer) :
    (adjust_header c).bytes.length = c.bytes.length := by
  show (adjust_bytes c).length = _
  simp only [adjust_bytes, length_zeroRange]

theorem adjust_header_getD (c : ElfContainer) (i : Nat) :
    (adjust_header c).bytes.getD i 0 =
      if c.strtbloff ≤ i ∧ i < c.strtbloff + c.strtblsize then 0
      else if in_zeroed_header_field c.type i then 0
      else c.bytes.getD i 0 := by
  rcases c with ⟨t, sz, mm, so, ss, bs⟩
  show (adjust_bytes ⟨t, sz, mm, so, ss, bs⟩).getD i 0 = _
  cases t <;>
    simp only [adjust_bytes, in_zeroed_header_field, shoff_pos, shoff_len, shentsize_pos,
      shnum_pos, shstrndx_pos, getD_zeroRange] <;>
    split_ifs <;> first | rfl | (exfalso; omega)

theorem type_preserved (input : List Nat) (cin : ElfContainer) (out : List Nat)
    (cout : ElfContainer) (h1 : build_container input = .ok cin)
    (h2 : write_elf cin = .ok out) (h3 : build_container out = .ok cout) :
    cout.type = cin.type := by
  obtain ⟨hb1, -, -, -, hcl1⟩ := build_container_ok _ _ h1
  obtain ⟨-, -, -, -, hcl3⟩ := build_container_ok _ _ h3
  obtain ⟨hout, -, -, -⟩ := write_elf_ok _ _ h2
  have hcb : class_byte out = class_byte input ∨ class_byte out = 0 := by
    subst hout
    unfold class_byte
    rw [getD_take]
    split_ifs with h4
    · left
      rw [getD_mapped_bytes, hb1]
    · right
      rfl
  rcases hcb with hcb | hcb
  · rcases hcl1 with ⟨ha, hta⟩ | ⟨ha, hta⟩ <;> rcases hcl3 with ⟨hb, htb⟩ | ⟨hb, htb⟩ <;>
      rw [hta, htb] <;> (exfalso; omega)
  · rcases hcl3 with ⟨hb, -⟩ | ⟨hb, -⟩ <;> (exfalso; omega)

theorem write_elf_shoff_zero (c : ElfContainer) (h0 : e_shoff c = 0)
    (hm : c.mmapped < 2 ^ 32 - 1) : write_elf c = .error .writeFailed := by
  have hw : 2 ^ 32 - 1 ≤ write_size c := by
    rcases c with ⟨t, sz, mm, so, ss, bs⟩
    rcases t <;> simp only [write_size] <;> rw [h0] <;> omega
  unfold write_elf
  rw [if_pos (Or.inr (by omega))]

/-! ## Claim theorems -/

/-- C1: the spec claims that for a valid input with `e_shnum > 0` the
stripped output's byte length equals the input's `e_shoff` ("no
off-by-one").  The code computes the write length as `e_shoff - 1`
(src/elfkillah.c lines 245 and 248), so on a valid 400-byte ELF64 input with
`e_shoff = 320` the embedded pipeline produces a 319-byte output, one byte
short of the claimed 320. -/
theorem C1_cut_length_off_by_one :
    Except.map e_shoff (build_container C1file) = .ok 320 ∧
    C1file.length = 400 ∧
    Except.map List.length (strip C1file) = .ok 319 :=
  ⟨rfl, rfl, rfl⟩

/-- C2 counterexample: an input with `e_shnum = 0` is not returned
byte-identical: on a 200-byte ELF32 input with `e_shnum = 0` and
`e_shoff = 100` the run succeeds but produces a 99-byte output, so the
operation is not a no-op. -/
theorem C2_shnum_zero_not_noop_cex :
    Except.map e_shnum (build_container C2file) = .ok 0 ∧
    strip C2file = .ok C2out ∧
    C2out.length = 99 ∧ C2file.length = 200 ∧ C2out ≠ C2file :=
  ⟨rfl, rfl, rfl, rfl, by decide⟩

/-- C2 (amended): `e_shnum = 0` receives no special treatment — `write_elf`
still writes `e_shoff - 1` bytes, so whenever such a run succeeds and
`0 < e_shoff - 1 < fileSize`, the output is strictly shorter than the input
(never byte-identical to it). -/
theorem C2_shnum_zero_strict_shrink (input : List Nat) (cin : ElfContainer) (y : List Nat)
    (h1 : build_container input = .ok cin) (hn : e_shnum cin = 0)
    (hpos : 0 < write_size cin) (hlt : write_size cin < input.length)
    (hy : strip input = .ok y) :
    y.length < input.length := by
  rcases hw : write_elf cin with e | out
  · rw [strip, main_run_write_error input cin e h1 hw] at hy
    cases hy
  · rcases h3 : build_container out with e | cout
    · rw [strip, main_run_out_error input cin out e h1 hw h3] at hy
      cases hy
    · rw [strip, main_run_ok input cin out cout h1 hw h3] at hy
      cases hy
      obtain ⟨-, -, -, hlen⟩ := write_elf_ok _ _ hw
      obtain ⟨hb3, -, -, -, -⟩ := build_container_ok _ _ h3
      rw [adjust_header_length]
      simp only [copy_strtbl]
      rw [hb3, hlen]
      exact hlt

theorem C2_shnum_zero_strict_shrink_w : C2out.length < C2file.length :=
  C2_shnum_zero_strict_shrink C2file C2cin C2out rfl rfl (by decide) (by decide) rfl

/-- C3 counterexample: on a valid ELF64 input with `e_shnum = 2 > 0` and
`e_shoff = 0` the run does not fail with any `AlreadyStripped` validation
before writing: the destination file is created (`O_CREAT|O_TRUNC` happens
before the size is even computed), and the run dies in the write stage. -/
theorem C3_shoff_zero_output_created_cex :
    Except.map e_shoff (build_container C3file) = .ok 0 ∧
    Except.map e_shnum (build_container C3file) = .ok 2 ∧
    ((main_run C3file).1.dst).isSome = true ∧
    (main_run C3file).2 = .error (.outWrite .writeFailed) :=
  ⟨rfl, rfl, rfl, rfl⟩

/-- C3 (amended): no cut-offset validation exists.  With `e_shoff = 0` the
destination is still created, the requested write length wraps to
`2^32 - 1` (ELF32) or `2^64 - 1` (ELF64), and the run aborts in the write
stage — after the destination file exists. -/
theorem C3_no_cut_validation (input : List Nat) (cin : ElfContainer)
    (h1 : build_container input = .ok cin) (hn : 0 < e_shnum cin)
    (h0 : e_shoff cin = 0) (hb : input.length < 2 ^ 31) :
    ((main_run input).1.dst).isSome = true ∧
    (main_run input).2 = .error (.outWrite .writeFailed) ∧
    (write_size cin = 2 ^ 32 - 1 ∨ write_size cin = 2 ^ 64 - 1) := by
  obtain ⟨-, -, hmm, -, -⟩ := build_container_ok _ _ h1
  have hmlt : cin.mmapped < 2 ^ 32 - 1 := by
    have := align_to_page_le input.length
    omega
  have hwe := write_elf_shoff_zero cin h0 hmlt
  rw [main_run_write_error input cin .writeFailed h1 hwe]
  refine ⟨rfl, rfl, ?_⟩
  rcases cin with ⟨t, sz, mm, so, ss, bs⟩
  rcases t
  · left
    simp only [write_size]
    rw [h0]
    omega
  · right
    simp only [write_size]
    rw [h0]
    omega

theorem C3_no_cut_validation_w :
    ((main_run C3file).1.dst).isSome = true ∧
    (main_run C3file).2 = .error (.outWrite .writeFailed) ∧
    (write_size C3cin = 2 ^ 32 - 1 ∨ write_size C3cin = 2 ^ 64 - 1) :=
  C3_no_cut_validation C3file C3cin rfl (by decide) rfl (by decide)

/-- C4 counterexample: on a container whose `e_shstrndx = 5` exceeds
`e_shnum = 1` and whose computed section-header address `64 + 5*64 = 384`
lies past the 120-byte file, `build_container`/`get_string_table` still
return normally (recording the values read past the end, here 0) — there is
no `IndexOutOfRange` failure. -/
theorem C4_no_bounds_check_cex :
    build_container C4file = .ok C4ctr ∧
    e_shnum C4ctr = 1 ∧ e_shstrndx C4ctr = 5 ∧
    C4ctr.size < e_shoff C4ctr + e_shstrndx C4ctr * e_shentsize C4ctr + sh_offset_pos C4ctr.type ∧
    get_string_table C4ctr = C4ctr :=
  ⟨rfl, rfl, rfl, by decide, rfl⟩

/-- C4 (amended): `get_string_table` performs no bounds check at all: for
every container — in particular whenever `e_shstrndx ≥ e_shnum` — it reads
`sh_offset` and `sh_size` at the unchecked address
`e_shoff + e_shstrndx * e_shentsize` and returns normally. -/
theorem C4_unchecked_read (c : ElfContainer) (h : e_shnum c ≤ e_shstrndx c) :
    (get_string_table c).strtbloff =
      readLE c.bytes (e_shoff c + e_shstrndx c * e_shentsize c + sh_offset_pos c.type)
        (word_len c.type) ∧
    (get_string_table c).strtblsize =
      readLE c.bytes (e_shoff c + e_shstrndx c * e_shentsize c + sh_size_pos c.type)
        (word_len c.type) ∧
    (get_string_table c).bytes = c.bytes ∧ (get_string_table c).type = c.type :=
  ⟨rfl, rfl, rfl, rfl⟩

theorem C4_unchecked_read_w :
    (get_string_table C4ctr).strtbloff =
      readLE C4ctr.bytes (e_shoff C4ctr + e_shstrndx C4ctr * e_shentsize C4ctr +
        sh_offset_pos C4ctr.type) (word_len C4ctr.type) ∧
    (get_string_table C4ctr).strtblsize =
      readLE C4ctr.bytes (e_shoff C4ctr + e_shstrndx C4ctr * e_shentsize C4ctr +
        sh_size_pos C4ctr.type) (word_len C4ctr.type) ∧
    (get_string_table C4ctr).bytes = C4ctr.bytes ∧ (get_string_table C4ctr).type = C4ctr.type :=
  C4_unchecked_read C4ctr (by decide)

/-- C5 counterexample: on `C5file` the recorded string-table range
`[90, 110)` is not contained in the retained region `[0, 100)`, yet the
scrub is not skipped: byte 95 of the output was zeroed (it was 7 in the
input). -/
theorem C5_scrub_not_skipped_cex :
    strip C5file = .ok C5out ∧
    C5out.length = 100 ∧
    (theContainer C5file).strtbloff = 90 ∧
    (theContainer C5file).strtblsize = 20 ∧
    C5out.length < 90 + 20 ∧
    C5file.getD 95 0 = 7 ∧
    C5out.getD 95 0 = 0 :=
  ⟨rfl, rfl, rfl, rfl, by decide, rfl, rfl⟩

/-- C5 (amended): the scrub in `adjust_header` is unconditional — every byte
position inside the recorded `[strtbloff, strtbloff + strtblsize)` range is
zeroed, with no containment check against the retained region (stores past
the end of the kept file are dropped by the model; in the C they write past
the end of the mapped output file, which is undefined behavior). -/
theorem C5_unconditional_scrub (c : ElfContainer) (i : Nat)
    (hlo : c.strtbloff ≤ i) (hhi : i < c.strtbloff + c.strtblsize) :
    (adjust_header c).bytes.getD i 0 = 0 := by
  rw [adjust_header_getD, if_pos ⟨hlo, hhi⟩]

theorem C5_unconditional_scrub_w :
    (adjust_header (theContainer C5file)).bytes.getD 95 0 = 0 :=
  C5_unconditional_scrub (theContainer C5file) 95 (by decide) (by decide)

/-- C6 counterexample: a short write — 1 byte written of a requested 100 —
passes the check `written == 0 || written == -1` and is reported as
success, not as a fatal error. -/
theorem C6_short_write_accepted_cex :
    write_reported 100 1 = .ok 1 ∧ (1 : Int) < 100 :=
  ⟨rfl, by decide⟩

/-- C6 (amended): the only write results treated as fatal are `0` and `-1`;
every positive return value — in particular any partial write smaller than
the requested size — is accepted as success. -/
theorem C6_positive_write_reported_ok (size : Nat) (written : Int) (h : 0 < written) :
    write_reported size written = .ok written := by
  have h0 : (written == 0) = false := by
    rw [beq_eq_false_iff_ne]
    omega
  have h1 : (written == -1) = false := by
    rw [beq_eq_false_iff_ne]
    omega
  unfold write_reported write_check_fails
  rw [h0, h1]
  rfl

theorem C6_positive_write_reported_ok_w : write_reported 100 7 = .ok 7 :=
  C6_positive_write_reported_ok 100 7 (by decide)

/-- C7 counterexample: byte 155 of `C7file` lies in the retained region
`[0, 199)`, is not one of the four zeroed header fields, yet differs between
input (0x41) and output (0): it is inside the string-table range
`[150, 160)`, which `adjust_header` also zeroes. -/
theorem C7_strtbl_byte_zeroed_cex :
    strip C7file = .ok C7y ∧
    C7file.getD 155 0 = 0x41 ∧
    C7y.getD 155 0 = 0 ∧
    ¬ in_zeroed_header_field ElfType.elf64 155 ∧
    Except.map (fun c => c.type) (build_container C7file) = .ok ElfType.elf64 ∧
    155 < C7y.length :=
  ⟨rfl, rfl, rfl, by decide, rfl, by decide⟩

/-- C7 (amended): for every successful run the output spans
`write_size = e_shoff - 1` bytes (one short of `e_shoff`), every byte inside
the four zeroed header fields or inside the recorded string-table range
reads 0, and every other byte of the output is bit-identical to the
corresponding input byte. -/
theorem C7_strip_frame (input : List Nat) (cin : ElfContainer) (out : List Nat)
    (cout : ElfContainer) (y : List Nat) (i : Nat)
    (h1 : build_container input = .ok cin) (h2 : write_elf cin = .ok out)
    (h3 : build_container out = .ok cout) (h4 : strip input = .ok y) :
    y.length = write_size cin ∧
    ((in_zeroed_header_field cin.type i ∨
        (cin.strtbloff ≤ i ∧ i < cin.strtbloff + cin.strtblsize)) → y.getD i 0 = 0) ∧
    (¬ in_zeroed_header_field cin.type i →
      ¬ (cin.strtbloff ≤ i ∧ i < cin.strtbloff + cin.strtblsize) →
      i < y.length → y.getD i 0 = input.getD i 0) := by
  rw [strip, main_run_ok input cin out cout h1 h2 h3] at h4
  cases h4
  obtain ⟨hout, -, -, hlen⟩ := write_elf_ok _ _ h2
  obtain ⟨hb1, -, -, -, -⟩ := build_container_ok _ _ h1
  obtain ⟨hb3, -, -, -, -⟩ := build_container_ok _ _ h3
  have hty := type_preserved input cin out cout h1 h2 h3
  have hL : (adjust_header (copy_strtbl cout cin)).bytes.length = write_size cin := by
    rw [adjust_header_length]
    simp only [copy_strtbl]
    rw [hb3, hlen]
  refine ⟨hL, ?_, ?_⟩
  · intro hmem
    rw [adjust_header_getD]
    simp only [copy_strtbl]
    rw [hty]
    rcases hmem with hmem | hmem
    · by_cases hst : cin.strtbloff ≤ i ∧ i < cin.strtbloff + cin.strtblsize
      · rw [if_pos hst]
      · rw [if_neg hst, if_pos hmem]
    · rw [if_pos hmem]
  · intro hnf hns hi
    rw [hL] at hi
    rw [adjust_header_getD]
    simp only [copy_strtbl]
    rw [hty, if_neg hns, if_neg hnf, hb3, hout, getD_take, if_pos hi, getD_mapped_bytes, hb1]

theorem C7_strip_frame_w :
    C7y.length = write_size C7cin ∧
    ((in_zeroed_header_field C7cin.type 10 ∨
        (C7cin.strtbloff ≤ 10 ∧ 10 < C7cin.strtbloff + C7cin.strtblsize)) → C7y.getD 10 0 = 0) ∧
    (¬ in_zeroed_header_field C7cin.type 10 →
      ¬ (C7cin.strtbloff ≤ 10 ∧ 10 < C7cin.strtbloff + C7cin.strtblsize) →
      10 < C7y.length → C7y.getD 10 0 = C7file.getD 10 0) :=
  C7_strip_frame C7file C7cin C7out C7cout C7y 10 rfl rfl rfl rfl

/-- C8: confirmed — for every input failing the 4-byte magic check,
`build_container` fails with the bad-file exit before any destination file
is opened: the run ends with no destination file on disk. -/
theorem C8_bad_magic_no_output (input : List Nat) (h : magic_ok input = false) :
    build_container input = .error .badFile ∧
    (main_run input).1.dst = none ∧
    (main_run input).2 = .error (.srcOpen .badFile) := by
  have hb : build_container input = .error .badFile := by
    unfold build_container
    rw [if_pos h]
  rw [main_run_src_error input .badFile hb]
  exact ⟨hb, rfl, rfl⟩

theorem C8_bad_magic_no_output_w :
    build_container (List.replicate 4 0) = .error .badFile ∧
    (main_run (List.replicate 4 0)).1.dst = none ∧
    (main_run (List.replicate 4 0)).2 = .error (.srcOpen .badFile) :=
  C8_bad_magic_no_output (List.replicate 4 0) (by decide)

/-- C9 counterexample: stripping is not idempotent.  On the valid ELF64
input `C9x` the first run succeeds, producing `C9y` (whose `e_shoff` field
now reads 0 because `adjust_header` zeroed it); running the stripper on
`C9y` fails in the write stage (the size computation `e_shoff - 1` wraps),
so `strip (strip x)` is not `strip x`. -/
theorem C9_not_idempotent_cex :
    strip C9x = .ok C9y ∧
    strip C9y = .error (.outWrite .writeFailed) ∧
    strip C9y ≠ strip C9x :=
  ⟨rfl, rfl, by decide⟩

/-- C9 (amended): on any already-stripped output — any file whose `e_shoff`
field reads 0, as every output of a successful run does — a second run is
not a no-op: it fails in the write stage, because the requested length
`e_shoff - 1` wraps to `2^w - 1`, beyond the mapping. -/
theorem C9_second_strip_fails (y : List Nat) (c : ElfContainer)
    (h1 : build_container y = .ok c) (h0 : e_shoff c = 0) (hb : y.length < 2 ^ 31) :
    strip y = .error (.outWrite .writeFailed) := by
  obtain ⟨-, -, hmm, -, -⟩ := build_container_ok _ _ h1
  have hmlt : c.mmapped < 2 ^ 32 - 1 := by
    have := align_to_page_le y.length
    omega
  have hwe := write_elf_shoff_zero c h0 hmlt
  rw [strip, main_run_write_error y c .writeFailed h1 hwe]

theorem C9_second_strip_fails_w : strip C9y = .error (.outWrite .writeFailed) :=
  C9_second_strip_fails C9y C9yc rfl rfl (by decide)

/-- C10: confirmed — the source file's content after a run equals its
content before the run, on every path (error or success): all header-field
zeroing and string-table scrubbing of `adjust_header` is applied to the
container built from the destination file, never through the source
container's mapping. -/
theorem C10_source_file_preserved (src : List Nat) : ((main_run src).1).src = src := by
  rcases hb : build_container src with e | cin
  · rw [main_run_src_error src e hb]
  · rcases hw : write_elf cin with e | out
    · rw [main_run_write_error src cin e hb hw]
    · rcases h3 : build_container out with e | cout
      · rw [main_run_out_error src cin out e hb hw h3]
      · rw [main_run_ok src cin out cout hb hw h3]
